import Mathlib

/-!
Shallow embedding of `src/homework.py` (a Telegram homework-status polling
bot).  Python values that flow through the program are modelled by `PyValue`;
exceptions by `Exn` (a dynamic-type tag plus the message string); the
functions `send_message`, `get_api_answer`, `check_response`, `parse_status`,
`check_tokens` and `handle_error` are translated one-to-one; the body of the
`while True` loop in `main` becomes the step function `main_step` over
`LoopState`, fed by an `IterEnv` oracle that supplies the clock readings and
the outcomes of the external network calls of that iteration.
-/

/-- Python values as decoded from JSON and passed around by the program:
`None`, booleans, integers, strings, lists and string-keyed dicts
(represented as association lists; Python dicts have unique keys, and the
program only ever reads them through `get`/`in`, which an association-list
lookup models exactly). -/
inductive PyValue where
| none
| bool (b : Bool)
| int (n : Int)
| str (s : String)
| list (xs : List PyValue)
| dict (d : List (String × PyValue))

/-- Dynamic type tags for the exceptions that can arise in `homework.py`.
The classes `IncorrectResponseException`, `UnknownStatusException`,
`TelegramAPIException` and `HomeworkMissingException` come from the
repository `exceptions` module (plain `Exception` subclasses); `httpError`
is `requests.HTTPError`; `genericException` is a bare `Exception`;
`attributeError`, `typeError` and `indexError` are the built-ins raised by
attribute access / unhashable keys / bad subscripts.  `telegramAPISubclass`
stands for an arbitrary proper subclass of `TelegramAPIException`: a distinct
dynamic type, but an instance of `TelegramAPIException` in the
`isinstance` sense. -/
inductive ExnType where
| incorrectResponse
| unknownStatus
| telegramAPI
| telegramAPISubclass
| homeworkMissing
| httpError
| genericException
| attributeError
| typeError
| indexError
deriving DecidableEq, Repr

/-- `isinstance(e, TelegramAPIException)`: true for the class itself and for
any proper subclass of it. -/
def isTelegramAPIInstance : ExnType → Bool
| ExnType.telegramAPI => true
| ExnType.telegramAPISubclass => true
| _ => false

/-- A raised Python exception: its dynamic type (`type(e)`) and its message
(`str(e)`). -/
structure Exn where
  ty : ExnType
  msg : String
deriving DecidableEq, Repr

/-- `isinstance(v, dict)`. -/
def isDict : PyValue → Bool
| PyValue.dict _ => true
| _ => false

/-- `isinstance(v, list)`. -/
def isList : PyValue → Bool
| PyValue.list _ => true
| _ => false

/-- `len(v)` for the container shapes the program applies it to. -/
def pyLen : PyValue → Nat
| PyValue.dict d => d.length
| PyValue.list xs => xs.length
| PyValue.str s => s.length
| _ => 0

/-- `k in v` for a dict `v` (membership test on the keys). -/
def hasKey (v : PyValue) (k : String) : Bool :=
  match v with
  | PyValue.dict d => (d.lookup k).isSome
  | _ => false

/-- `v.get(k)` for a dict `v`: the stored value, or `None` when the key is
absent.  (The program only calls `.get` after an `isinstance(v, dict)`
check, except in `parse_status`, which guards with a `match` there.) -/
def pyGet (v : PyValue) (k : String) : PyValue :=
  match v with
  | PyValue.dict d => (d.lookup k).getD PyValue.none
  | _ => PyValue.none

/-- Python truthiness of a value, as used by `if homeworks:`. -/
def pyTruthy : PyValue → Bool
| PyValue.none => false
| PyValue.bool b => b
| PyValue.int n => n != 0
| PyValue.str s => !s.isEmpty
| PyValue.list xs => !xs.isEmpty
| PyValue.dict d => !d.isEmpty

/-- `v is None`. -/
def isNone : PyValue → Bool
| PyValue.none => true
| _ => false

/-- `v[0]`: first element of a list; `IndexError` on an empty list,
`TypeError` on a non-subscriptable value (the loop only reaches this after
`check_response` has established a non-empty list). -/
def pyIndex0 : PyValue → Except Exn PyValue
| PyValue.list (x :: _) => Except.ok x
| PyValue.list [] => Except.error ⟨ExnType.indexError, "list index out of range"⟩
| _ => Except.error ⟨ExnType.typeError, "object is not subscriptable"⟩

mutual

/-- `repr(v)`.  String quoting is approximated by bare single quotes (the
program never formats a container holding quote or escape characters). -/
def pyRepr : PyValue → String
| PyValue.none => "None"
| PyValue.bool true => "True"
| PyValue.bool false => "False"
| PyValue.int n => toString n
| PyValue.str s => "\x27" ++ s ++ "\x27"
| PyValue.list xs => "[" ++ pyReprList xs ++ "]"
| PyValue.dict d => "\x7b" ++ pyReprDict d ++ "\x7d"

/-- Comma-separated `repr`s of list elements. -/
def pyReprList : List PyValue → String
| [] => ""
| [x] => pyRepr x
| x :: xs => pyRepr x ++ ", " ++ pyReprList xs

/-- Comma-separated `repr`s of dict entries. -/
def pyReprDict : List (String × PyValue) → String
| [] => ""
| [(k, v)] => "\x27" ++ k ++ "\x27: " ++ pyRepr v
| (k, v) :: es => "\x27" ++ k ++ "\x27: " ++ pyRepr v ++ ", " ++ pyReprDict es

end

/-- `str(v)`, as an f-string interpolation computes it: a string formats as
itself, everything else as its `repr`. -/
def pyStr : PyValue → String
| PyValue.str s => s
| v => pyRepr v

/-- The fixed API endpoint (module constant `ENDPOINT`). -/
def ENDPOINT : String := "https://practicum.yandex.ru/api/user_api/homework_statuses/"

/-- Module constant `RETRY_PERIOD` (seconds slept at the end of every
iteration). -/
def RETRY_PERIOD : Nat := 600

/-- Module constant `ERROR_CACHE_LIFETIME = 60 * 60 * 24` seconds. -/
def ERROR_CACHE_LIFETIME : Int := 60 * 60 * 24

/-- Module constant `HOMEWORK_VERDICTS`: the static status → verdict map. -/
def HOMEWORK_VERDICTS : List (String × String) :=
  [("approved", "Работа проверена: ревьюеру всё понравилось. Ура!"),
   ("reviewing", "Работа взята на проверку ревьюером."),
   ("rejected", "Работа проверена: у ревьюера есть замечания.")]

/-- `homework_status in HOMEWORK_VERDICTS` followed by
`HOMEWORK_VERDICTS.get(homework_status)`, fused: the verdict when the status
is a string key of the map, `none` otherwise (a non-string JSON value is
never equal to a string key; the inputs of the program are decoded JSON, so
unhashable keys do not arise on any path the claims touch). -/
def verdictOf : PyValue → Option String
| PyValue.str s => HOMEWORK_VERDICTS.lookup s
| _ => Option.none

/-- `d[k] = v` on a string-keyed dict.  Entry order is not observable
through `get`/`in`, the only reads the program performs. -/
def dictSet (d : List (String × Nat)) (k : String) (v : Nat) : List (String × Nat) :=
  (k, v) :: d.filter (fun p => p.1 != k)

/-- Python truthiness of the result of `dict.get` for an int-valued dict, as used
by `if not error:` in `handle_error` (`None` and `0` are falsy). -/
def optTruthy : Option Nat → Bool
| Option.none => false
| Option.some t => t != 0

/-- `send_message(bot, message)`: delivers `message` to the chat and returns
it, or — when the underlying `bot.send_message` raises (`sendResult = some
errStr`, `errStr` being the `str` of that error) — logs and raises
`TelegramAPIException` with the wrapped message. -/
def send_message (sendResult : Option String) (message : String) : Except Exn String :=
  match sendResult with
  | Option.none => Except.ok message
  | Option.some errStr =>
      Except.error ⟨ExnType.telegramAPI, "Ошибка при отправке сообщения: " ++ errStr⟩

/-- Outcome of the external `requests.get(ENDPOINT, ...)` call of one
iteration: a response with a status code and decoded JSON body, a
`ConnectionRefusedError` (carrying its `str`), or any other exception raised
by the request or by `.json()` (carrying its `str`). -/
inductive FetchOutcome where
| response (statusCode : Nat) (body : PyValue)
| connectionRefused (errStr : String)
| otherError (errStr : String)

/-- `timestamp = current_timestamp or int(time.time())` at the top of
`get_api_answer`: the cursor, or the current time when the cursor is falsy
(`0`).  It only shapes the `from_date` parameter of the outbound request. -/
def effective_timestamp (current_timestamp now : Nat) : Nat :=
  if current_timestamp = 0 then now else current_timestamp

/-- `get_api_answer(current_timestamp)` after the external call resolved to
`fetch`: a 200 response yields its JSON body; any other status code raises
`HTTPError()` which the first handler wraps (an empty `str`); a
`ConnectionRefusedError` is wrapped the same way; any other exception is
wrapped into a bare `Exception`. -/
def get_api_answer (fetch : FetchOutcome) : Except Exn PyValue :=
  match fetch with
  | FetchOutcome.response statusCode body =>
      if statusCode = 200 then Except.ok body
      else Except.error ⟨ExnType.httpError, "Ресурс " ++ ENDPOINT ++ " недоступен: "⟩
  | FetchOutcome.connectionRefused errStr =>
      Except.error ⟨ExnType.httpError, "Ресурс " ++ ENDPOINT ++ " недоступен: " ++ errStr⟩
  | FetchOutcome.otherError errStr =>
      Except.error ⟨ExnType.genericException, "Ошибка при запросе к API: " ++ errStr⟩

/-- `check_response(response)`: the response is accepted iff it is a dict,
non-empty, has keys `homeworks` and `current_date`, and the value under
`homeworks` is a list; then the `homeworks` value is returned unchanged.
Otherwise `IncorrectResponseException` is raised. -/
def check_response (response : PyValue) : Except Exn PyValue :=
  if isDict response && pyLen response != 0 && hasKey response "homeworks"
      && hasKey response "current_date" && isList (pyGet response "homeworks") then
    Except.ok (pyGet response "homeworks")
  else
    Except.error ⟨ExnType.incorrectResponse, "Ответ API не соответствует ожидаемому!"⟩

/-- `parse_status(homework)`: reads the `homework_name` and `status`
entries via `.get`; raises `HomeworkMissingException` when the name is
`None` (absent or stored as null), `UnknownStatusException` when the status
is not a key of `HOMEWORK_VERDICTS`, and otherwise returns the formatted
verdict line.  A non-dict argument fails the attribute access `.get`. -/
def parse_status (homework : PyValue) : Except Exn String :=
  match homework with
  | PyValue.dict _ =>
      let homework_name := pyGet homework "homework_name"
      let homework_status := pyGet homework "status"
      if isNone homework_name then
        Except.error ⟨ExnType.homeworkMissing,
          "`homework_name` отсутствует: " ++ pyStr homework_name⟩
      else
        match verdictOf homework_status with
        | Option.none =>
            Except.error ⟨ExnType.unknownStatus,
              "Получен неизвестный статус домашней работы: " ++ pyStr homework_status⟩
        | Option.some verdict =>
            Except.ok ("Изменился статус проверки работы \"" ++ pyStr homework_name
              ++ "\". " ++ verdict)
  | _ => Except.error ⟨ExnType.attributeError, "object has no attribute get"⟩

/-- `check_tokens()`: `all` of the three environment values must be truthy
(a missing variable is `None`, and an empty string is falsy too). -/
def check_tokens (practicumToken telegramToken telegramChatId : Option String) : Bool :=
  match practicumToken, telegramToken, telegramChatId with
  | Option.some p, Option.some t, Option.some c => !p.isEmpty && !t.isEmpty && !c.isEmpty
  | _, _, _ => false

/-- `handle_error(bot, message)` acting on the `errors_occured` cache:
returns the cache after the call, the chat messages delivered by it, and the
exception it raises, if any.  A `TelegramAPIException` (exact dynamic type,
per `type(message) == TelegramAPIException`) is dropped at once.  Otherwise,
when the cache holds no truthy timestamp for `str(message)`, the message is
recorded at `now` and a `[WARNING]`-prefixed notification is attempted —
whose own failure (`sendWarning = some errStr`) raises out of
`handle_error` after the cache write. -/
def handle_error (errors_occured : List (String × Nat)) (now : Nat)
    (sendWarning : Option String) (e : Exn) :
    List (String × Nat) × List String × Option Exn :=
  if e.ty = ExnType.telegramAPI then
    (errors_occured, [], Option.none)
  else
    let message := e.msg
    let error := errors_occured.lookup message
    if !optTruthy error then
      let errs := dictSet errors_occured message now
      match send_message sendWarning ("[WARNING] " ++ message) with
      | Except.ok m => (errs, [m], Option.none)
      | Except.error e2 => (errs, [], Option.some e2)
    else
      (errors_occured, [], Option.none)

/-- The mutable state of the loop in `main`: the global `errors_occured` cache,
the `cache_cleared` epoch (set once before the loop), and the
`current_timestamp` cursor. -/
structure LoopState where
  errors_occured : List (String × Nat)
  cache_cleared : Nat
  current_timestamp : Nat

/-- The external events of one loop iteration: the `int(time.time())`
readings at the cache check, at the cursor advance and inside
`handle_error`, the outcome of the HTTP fetch, and whether each of the two
possible `bot.send_message` calls fails (`some` carries the `str` of the
underlying error). -/
structure IterEnv where
  nowCacheCheck : Nat
  fetch : FetchOutcome
  sendStatus : Option String
  nowAdvance : Nat
  nowHandleError : Nat
  sendWarning : Option String

/-- The cache-lifetime check opening each iteration:
`if int(time.time()) - cache_cleared > ERROR_CACHE_LIFETIME:
errors_occured.clear()`.  Note `cache_cleared` itself is not touched. -/
def clear_check (errors_occured : List (String × Nat)) (cache_cleared now : Nat) :
    List (String × Nat) :=
  if (now : Int) - (cache_cleared : Int) > ERROR_CACHE_LIFETIME then [] else errors_occured

/-- The `try` body of one iteration after the cache check: fetch, validate,
then — when the homeworks list is truthy — interpret item 0 and send the
result.  Returns the chat messages delivered on success, or the first
exception raised. -/
def iteration_body (env : IterEnv) : Except Exn (List String) :=
  match get_api_answer env.fetch with
  | Except.error e => Except.error e
  | Except.ok response =>
    match check_response response with
    | Except.error e => Except.error e
    | Except.ok homeworks =>
      if pyTruthy homeworks then
        match pyIndex0 homeworks with
        | Except.error e => Except.error e
        | Except.ok hw0 =>
          match parse_status hw0 with
          | Except.error e => Except.error e
          | Except.ok message =>
            match send_message env.sendStatus message with
            | Except.error e => Except.error e
            | Except.ok m => Except.ok [m]
      else Except.ok []

/-- One pass of the `while True` body of `main`: run the cache check, then the
`try` body; on success advance the cursor to `env.nowAdvance`; on an
exception run `handle_error` on the (possibly cleared) cache and leave the
cursor alone.  Returns the new state, the chat messages delivered this
iteration, and — third component — an exception propagating out of the loop
body: the `except Exception` clause does not guard `handle_error` itself, so
an exception raised there escapes the loop (after the `finally` sleep) and
terminates `main`. -/
def main_step (st : LoopState) (env : IterEnv) : LoopState × List String × Option Exn :=
  let errs1 := clear_check st.errors_occured st.cache_cleared env.nowCacheCheck
  match iteration_body env with
  | Except.ok msgs => (⟨errs1, st.cache_cleared, env.nowAdvance⟩, msgs, Option.none)
  | Except.error e =>
    let r := handle_error errs1 env.nowHandleError env.sendWarning e
    (⟨r.1, st.cache_cleared, st.current_timestamp⟩, r.2.1, r.2.2)

/-- Validity of an API response in the words of the specification (to be
compared with the condition coded in `check_response`): the value is a
non-empty keyed structure containing an items-equivalent key (`homeworks`)
whose value is a sequence, and a fetchedAt-equivalent key
(`current_date`). -/
def specValidResponse (v : PyValue) : Bool :=
  match v with
  | PyValue.dict d =>
      !d.isEmpty
      && (match d.lookup "homeworks" with
          | Option.some items => isList items
          | Option.none => false)
      && (d.lookup "current_date").isSome
  | _ => false

/-- Claim C1, counterexample: in an iteration whose fetch fails and whose
deduplicated `[WARNING]` notification also fails to deliver, the
`TelegramAPIException` raised by `send_message` inside `handle_error`
escapes the loop body (third component of `main_step`), terminating the
process — the claim asserts no exception other than the startup fatal case
ever escapes. -/
theorem c1_warning_send_failure_escapes_loop :
    (main_step ⟨[], 0, 50⟩
      ⟨100, FetchOutcome.connectionRefused "net down", Option.none, 150, 120,
        Option.some "telegram down"⟩).2.2
      = Option.some ⟨ExnType.telegramAPI, "Ошибка при отправке сообщения: telegram down"⟩ :=
  rfl

/-- Claim C1, as amended: every exception raised during the work of one
iteration (fetch, validate, interpret, notify-of-result) is caught at the
loop boundary and the loop continues — provided the deduplicated warning
notification itself is delivered without error; when that delivery fails,
the raised `TelegramAPIException` is not caught and terminates the
process. -/
theorem c1_no_escape_when_warning_delivery_ok (st : LoopState) (env : IterEnv)
    (h : env.sendWarning = Option.none) :
    (main_step st env).2.2 = Option.none := by
  unfold main_step
  cases hb : iteration_body env with
  | ok msgs => simp
  | error e =>
    simp only []
    unfold handle_error
    split
    · rfl
    · simp only [h, send_message]
      split <;> rfl

/-- Claim C1, witness: a concrete iteration whose fetch fails but whose
warning delivery succeeds leaves the loop running. -/
theorem c1_no_escape_witness :
    ((⟨100, FetchOutcome.connectionRefused "net down", Option.none, 150, 120,
        Option.none⟩ : IterEnv).sendWarning = Option.none)
    ∧ (main_step ⟨[], 0, 50⟩
        ⟨100, FetchOutcome.connectionRefused "net down", Option.none, 150, 120,
          Option.none⟩).2.2 = Option.none :=
  ⟨rfl, c1_no_escape_when_warning_delivery_ok _ _ rfl⟩

/-- Claim C2, counterexample: the iteration at `t = 86401` (epoch `0`)
clears the cache and records the fetch-failure warning; the claim then
promises a fresh 24-hour window, yet the very next iteration at
`t = 86402` — one second later — clears the cache again: the same message
is notified again instead of being suppressed, and the epoch field is
unchanged at `0`. -/
theorem c2_cache_cleared_again_one_second_later :
    (main_step ⟨[("stale error", 5)], 0, 50⟩
        ⟨86401, FetchOutcome.connectionRefused "down", Option.none, 90000, 86401,
          Option.none⟩).2.1
      = ["[WARNING] Ресурс https://practicum.yandex.ru/api/user_api/homework_statuses/ недоступен: down"]
    ∧ (main_step
        (main_step ⟨[("stale error", 5)], 0, 50⟩
          ⟨86401, FetchOutcome.connectionRefused "down", Option.none, 90000, 86401,
            Option.none⟩).1
        ⟨86402, FetchOutcome.connectionRefused "down", Option.none, 90001, 86402,
          Option.none⟩).2.1
      = ["[WARNING] Ресурс https://practicum.yandex.ru/api/user_api/homework_statuses/ недоступен: down"]
    ∧ (main_step ⟨[("stale error", 5)], 0, 50⟩
        ⟨86401, FetchOutcome.connectionRefused "down", Option.none, 90000, 86401,
          Option.none⟩).1.cache_cleared = 0 :=
  ⟨rfl, rfl, rfl⟩

/-- Claim C2, as amended: once per loop iteration, if the time elapsed
since the cache epoch exceeds `ERROR_CACHE_LIFETIME` the entire error cache
is cleared, and individual entry timestamps play no role in that decision;
but the epoch is never reset (no iteration changes `cache_cleared`), so
once 24 hours have passed since startup the cache is cleared wholesale on
every iteration. -/
theorem c2_clear_without_epoch_reset (st : LoopState) (env : IterEnv) :
    ((env.nowCacheCheck : Int) - (st.cache_cleared : Int) > ERROR_CACHE_LIFETIME →
      clear_check st.errors_occured st.cache_cleared env.nowCacheCheck = [])
    ∧ (¬ ((env.nowCacheCheck : Int) - (st.cache_cleared : Int) > ERROR_CACHE_LIFETIME) →
      clear_check st.errors_occured st.cache_cleared env.nowCacheCheck = st.errors_occured)
    ∧ (main_step st env).1.cache_cleared = st.cache_cleared := by
  refine ⟨fun h => ?_, fun h => ?_, ?_⟩
  · simp [clear_check, h]
  · simp [clear_check, h]
  · unfold main_step
    cases iteration_body env <;> simp

/-- Claim C2, witness: a concrete expired cache is cleared, and the epoch
survives the iteration untouched. -/
theorem c2_clear_witness :
    (((86401 : Nat) : Int) - ((0 : Nat) : Int) > ERROR_CACHE_LIFETIME
      ∧ clear_check [("stale error", 5)] 0 86401 = [])
    ∧ (main_step ⟨[("stale error", 5)], 0, 50⟩
        ⟨86401, FetchOutcome.connectionRefused "down", Option.none, 90000, 86401,
          Option.none⟩).1.cache_cleared = 0 :=
  ⟨⟨by decide,
    (c2_clear_without_epoch_reset ⟨[("stale error", 5)], 0, 50⟩
      ⟨86401, FetchOutcome.connectionRefused "down", Option.none, 90000, 86401,
        Option.none⟩).1 (by decide)⟩,
   (c2_clear_without_epoch_reset ⟨[("stale error", 5)], 0, 50⟩
      ⟨86401, FetchOutcome.connectionRefused "down", Option.none, 90000, 86401,
        Option.none⟩).2.2⟩

/-- Claim C3: for an error message not yet cached, the first pass through
`handle_error` records it and sends exactly one `[WARNING]` notification;
a second pass with the same message is suppressed (no notification, cache
unchanged); and after the retention window has elapsed — so that the
wholesale clear performed by the loop (`clear_check`) has emptied the
cache — the same message notifies again. -/
theorem c3_dedup_idempotent_until_cache_cleared (errs : List (String × Nat))
    (now1 now2 now3 cc nowClear : Nat) (e : Exn)
    (h1 : e.ty ≠ ExnType.telegramAPI)
    (h2 : errs.lookup e.msg = Option.none)
    (h3 : now1 ≠ 0)
    (h4 : (nowClear : Int) - (cc : Int) > ERROR_CACHE_LIFETIME) :
    handle_error errs now1 Option.none e
      = (dictSet errs e.msg now1, ["[WARNING] " ++ e.msg], Option.none)
    ∧ handle_error (dictSet errs e.msg now1) now2 Option.none e
      = (dictSet errs e.msg now1, [], Option.none)
    ∧ handle_error (clear_check (dictSet errs e.msg now1) cc nowClear) now3 Option.none e
      = ([(e.msg, now3)], ["[WARNING] " ++ e.msg], Option.none) := by
  refine ⟨?_, ?_, ?_⟩
  · simp [handle_error, h1, h2, optTruthy, send_message]
  · simp [handle_error, h1, dictSet, List.lookup, optTruthy, h3]
  · simp [clear_check, h4, handle_error, h1, List.lookup, optTruthy, send_message, dictSet]

/-- Claim C3, witness: the spec scenario — two consecutive occurrences of
"Resource unavailable" notify exactly once. -/
theorem c3_dedup_witness :
    ((⟨ExnType.httpError, "Resource unavailable"⟩ : Exn).ty ≠ ExnType.telegramAPI
      ∧ ([] : List (String × Nat)).lookup "Resource unavailable" = Option.none
      ∧ (1000 : Nat) ≠ 0
      ∧ ((86500 : Nat) : Int) - ((0 : Nat) : Int) > ERROR_CACHE_LIFETIME)
    ∧ handle_error [] 1000 Option.none ⟨ExnType.httpError, "Resource unavailable"⟩
      = ([("Resource unavailable", 1000)], ["[WARNING] Resource unavailable"], Option.none)
    ∧ handle_error [("Resource unavailable", 1000)] 2000 Option.none
        ⟨ExnType.httpError, "Resource unavailable"⟩
      = ([("Resource unavailable", 1000)], [], Option.none) := by
  have h := c3_dedup_idempotent_until_cache_cleared [] 1000 2000 90000 0 86500
    ⟨ExnType.httpError, "Resource unavailable"⟩ (by decide) (by rfl) (by decide) (by decide)
  exact ⟨⟨by decide, by rfl, by decide, by decide⟩, h.1, h.2.1⟩

/-- Claim C4: the cursor `current_timestamp` advances to the end-of-
iteration clock reading exactly when the try body succeeded; any exception
raised during fetch, validation, interpretation or notification leaves the
cursor unchanged for the next iteration. -/
theorem c4_cursor_advances_iff_iteration_succeeds (st : LoopState) (env : IterEnv) :
    ((iteration_body env).isOk = true →
      (main_step st env).1.current_timestamp = env.nowAdvance)
    ∧ ((iteration_body env).isOk = false →
      (main_step st env).1.current_timestamp = st.current_timestamp) := by
  unfold main_step
  cases iteration_body env <;> simp [Except.isOk, Except.toBool]

/-- Claim C4, witness: a valid response with an empty homeworks list still
advances the cursor (to `777`), while an invalid response (`dict []`)
leaves it at `50`. -/
theorem c4_cursor_witness :
    (iteration_body ⟨100, FetchOutcome.response 200
        (PyValue.dict [("homeworks", PyValue.list []), ("current_date", PyValue.int 1000)]),
        Option.none, 777, 120, Option.none⟩).isOk = true
    ∧ (main_step ⟨[], 0, 50⟩ ⟨100, FetchOutcome.response 200
        (PyValue.dict [("homeworks", PyValue.list []), ("current_date", PyValue.int 1000)]),
        Option.none, 777, 120, Option.none⟩).1.current_timestamp = 777
    ∧ (iteration_body ⟨100, FetchOutcome.response 200 (PyValue.dict []),
        Option.none, 777, 120, Option.none⟩).isOk = false
    ∧ (main_step ⟨[], 0, 50⟩ ⟨100, FetchOutcome.response 200 (PyValue.dict []),
        Option.none, 777, 120, Option.none⟩).1.current_timestamp = 50 :=
  ⟨rfl,
   (c4_cursor_advances_iff_iteration_succeeds ⟨[], 0, 50⟩ _).1 rfl,
   rfl,
   (c4_cursor_advances_iff_iteration_succeeds ⟨[], 0, 50⟩ _).2 rfl⟩

/-- Claim C5: an exception whose exact dynamic type is
`TelegramAPIException` is dropped by `handle_error` at once: the cache is
returned unchanged (nothing recorded), no notification is sent, and
nothing is raised — for every cache, clock reading and delivery outcome. -/
theorem c5_telegram_error_never_recorded (errs : List (String × Nat)) (now : Nat)
    (sendWarning : Option String) (msg : String) :
    handle_error errs now sendWarning ⟨ExnType.telegramAPI, msg⟩
      = (errs, [], Option.none) := by
  simp [handle_error]

/-- Claim C6: `check_response` raises `IncorrectResponseException` exactly
when the input fails the validity condition of the specification
(`specValidResponse`), and on every valid input returns the inner
`homeworks` value unchanged. -/
theorem c6_check_response_contract (v : PyValue) :
    (specValidResponse v = true → check_response v = Except.ok (pyGet v "homeworks"))
    ∧ (specValidResponse v = false →
      check_response v
        = Except.error ⟨ExnType.incorrectResponse, "Ответ API не соответствует ожидаемому!"⟩) := by
  have hcond : specValidResponse v
      = (isDict v && pyLen v != 0 && hasKey v "homeworks" && hasKey v "current_date"
          && isList (pyGet v "homeworks")) := by
    cases v <;> simp only [specValidResponse, isDict, pyLen, hasKey, pyGet,
      Bool.false_and, Bool.and_false]
    rename_i d
    cases d with
    | nil => rfl
    | cons p ps =>
      cases hlk : List.lookup "homeworks" (p :: ps) with
      | none => simp
      | some items =>
        cases hcd : List.lookup "current_date" (p :: ps) with
        | none => simp
        | some c =>
          simp only [Option.isSome_some, Option.getD_some, List.isEmpty_cons,
            Bool.not_false, Bool.true_and, List.length_cons, Bool.and_true]
          have hlen : (ps.length + 1 != 0) = true := by simp
          rw [hlen]
          cases isList items <;> simp
  rw [hcond]
  unfold check_response
  constructor <;> intro h
  · rw [if_pos h]
  · rw [if_neg]
    simp [h]

/-- Claim C6, witness: a well-shaped response returns its homeworks list
unchanged; the empty dict is rejected. -/
theorem c6_check_response_witness :
    (specValidResponse
        (PyValue.dict [("homeworks", PyValue.list [PyValue.str "x"]),
          ("current_date", PyValue.int 1000)]) = true
      ∧ check_response
        (PyValue.dict [("homeworks", PyValue.list [PyValue.str "x"]),
          ("current_date", PyValue.int 1000)])
        = Except.ok (PyValue.list [PyValue.str "x"]))
    ∧ (specValidResponse (PyValue.dict []) = false
      ∧ check_response (PyValue.dict [])
        = Except.error ⟨ExnType.incorrectResponse, "Ответ API не соответствует ожидаемому!"⟩) :=
  ⟨⟨rfl, (c6_check_response_contract _).1 rfl⟩, ⟨rfl, (c6_check_response_contract _).2 rfl⟩⟩

/-- Claim C7: for every homework record whose `homework_name` entry is
absent or stored as null — either way `.get` yields `None` —
`parse_status` raises `HomeworkMissingException`, whatever the `status`
entry holds: the name check precedes the status check. -/
theorem c7_missing_name_raises (d : List (String × PyValue))
    (h : pyGet (PyValue.dict d) "homework_name" = PyValue.none) :
    parse_status (PyValue.dict d)
      = Except.error ⟨ExnType.homeworkMissing, "`homework_name` отсутствует: None"⟩ := by
  unfold parse_status
  simp only [h]
  rfl

/-- Claim C7, witness: the name check fires both with a valid status
(`approved`) and with an invalid one (`bogus`). -/
theorem c7_missing_name_witness :
    (pyGet (PyValue.dict [("status", PyValue.str "approved")]) "homework_name" = PyValue.none
      ∧ parse_status (PyValue.dict [("status", PyValue.str "approved")])
        = Except.error ⟨ExnType.homeworkMissing, "`homework_name` отсутствует: None"⟩)
    ∧ (pyGet (PyValue.dict [("homework_name", PyValue.none), ("status", PyValue.str "bogus")])
          "homework_name" = PyValue.none
      ∧ parse_status
          (PyValue.dict [("homework_name", PyValue.none), ("status", PyValue.str "bogus")])
        = Except.error ⟨ExnType.homeworkMissing, "`homework_name` отсутствует: None"⟩) :=
  ⟨⟨rfl, c7_missing_name_raises _ rfl⟩, ⟨rfl, c7_missing_name_raises _ rfl⟩⟩

/-- Claim C8, counterexample: on the item with name `Proj1` and status
`approved`, `parse_status` does not return the English-prefixed string the
claim demands — the formatted line begins with the Russian prefix
`Изменился статус проверки работы`. -/
theorem c8_english_prefix_refuted :
    parse_status (PyValue.dict [("homework_name", PyValue.str "Proj1"),
        ("status", PyValue.str "approved")])
      ≠ Except.ok "Changed status of \"Proj1\". Работа проверена: ревьюеру всё понравилось. Ура!" := by
  intro h
  exact absurd (Except.ok.inj h) (by decide)

/-- Claim C8, as amended: on success `parse_status` returns the formatted
string `Изменился статус проверки работы "name". verdict` (the quoted name
followed by the verdict looked up from the static `HOMEWORK_VERDICTS`
map); for the item
with name `Proj1` and status `approved` this is exactly
`Изменился статус проверки работы "Proj1". Работа проверена: ревьюеру всё
понравилось. Ура!`. -/
theorem c8_parse_status_format (name status verdict : String)
    (h : HOMEWORK_VERDICTS.lookup status = Option.some verdict) :
    parse_status (PyValue.dict [("homework_name", PyValue.str name),
        ("status", PyValue.str status)])
      = Except.ok ("Изменился статус проверки работы \"" ++ name ++ "\". " ++ verdict) := by
  have h1 : pyGet (PyValue.dict [("homework_name", PyValue.str name),
      ("status", PyValue.str status)]) "homework_name" = PyValue.str name := rfl
  have h2 : pyGet (PyValue.dict [("homework_name", PyValue.str name),
      ("status", PyValue.str status)]) "status" = PyValue.str status := rfl
  simp only [parse_status, h1, h2, isNone, verdictOf, h, pyStr]
  simp

/-- Claim C8, witness: the `Proj1`/`approved` scenario, with the full
literal result string. -/
theorem c8_parse_status_witness :
    HOMEWORK_VERDICTS.lookup "approved"
      = Option.some "Работа проверена: ревьюеру всё понравилось. Ура!"
    ∧ parse_status (PyValue.dict [("homework_name", PyValue.str "Proj1"),
        ("status", PyValue.str "approved")])
      = Except.ok "Изменился статус проверки работы \"Proj1\". Работа проверена: ревьюеру всё понравилось. Ура!" :=
  ⟨rfl, c8_parse_status_format "Proj1" "approved" _ rfl⟩

/-- Claim C9: the suppression test of `handle_error` compares the dynamic
type for exact equality with `TelegramAPIException`; an exception of a
proper subclass type — an `isinstance` of `TelegramAPIException` but a
distinct dynamic type — is not suppressed: it is recorded in the cache and
its warning notification is sent like any other error. -/
theorem c9_subclass_not_suppressed (errs : List (String × Nat)) (now : Nat) (msg : String)
    (h : errs.lookup msg = Option.none) :
    isTelegramAPIInstance ExnType.telegramAPISubclass = true
    ∧ ExnType.telegramAPISubclass ≠ ExnType.telegramAPI
    ∧ handle_error errs now Option.none ⟨ExnType.telegramAPISubclass, msg⟩
      = (dictSet errs msg now, ["[WARNING] " ++ msg], Option.none) := by
  refine ⟨rfl, by decide, ?_⟩
  simp [handle_error, h, optTruthy, send_message]

/-- Claim C9, witness: a concrete subclass-typed error is cached and
forwarded. -/
theorem c9_subclass_witness :
    ([] : List (String × Nat)).lookup "boom" = Option.none
    ∧ handle_error [] 7 Option.none ⟨ExnType.telegramAPISubclass, "boom"⟩
      = ([("boom", 7)], ["[WARNING] boom"], Option.none) :=
  ⟨rfl, by
    have h := c9_subclass_not_suppressed [] 7 "boom" rfl
    simpa [dictSet] using h.2.2⟩

/-- Claim C10: `handle_error` writes the new message into the cache before
attempting the warning delivery, so when that delivery fails the message
stays recorded (no rollback) and the raised `TelegramAPIException` carries
the wrapped delivery error; a later occurrence of the same message is then
suppressed even though its notification was never delivered. -/
theorem c10_recorded_before_send (errs : List (String × Nat)) (now now2 : Nat)
    (errStr : String) (w2 : Option String) (e : Exn)
    (h1 : e.ty ≠ ExnType.telegramAPI)
    (h2 : errs.lookup e.msg = Option.none)
    (h3 : now ≠ 0) :
    handle_error errs now (Option.some errStr) e
      = (dictSet errs e.msg now, [],
          Option.some ⟨ExnType.telegramAPI, "Ошибка при отправке сообщения: " ++ errStr⟩)
    ∧ handle_error (dictSet errs e.msg now) now2 w2 e
      = (dictSet errs e.msg now, [], Option.none) := by
  constructor
  · simp [handle_error, h1, h2, optTruthy, send_message]
  · simp [handle_error, h1, dictSet, List.lookup, optTruthy, h3]

/-- Claim C10, witness: a failed warning delivery leaves `api down`
recorded at `500`, and the next occurrence is suppressed. -/
theorem c10_recorded_before_send_witness :
    ((⟨ExnType.httpError, "api down"⟩ : Exn).ty ≠ ExnType.telegramAPI
      ∧ ([] : List (String × Nat)).lookup "api down" = Option.none ∧ (500 : Nat) ≠ 0)
    ∧ handle_error [] 500 (Option.some "tg down") ⟨ExnType.httpError, "api down"⟩
      = ([("api down", 500)], [],
          Option.some ⟨ExnType.telegramAPI, "Ошибка при отправке сообщения: tg down"⟩)
    ∧ handle_error [("api down", 500)] 900 (Option.some "tg down")
        ⟨ExnType.httpError, "api down"⟩
      = ([("api down", 500)], [], Option.none) := by
  have h := c10_recorded_before_send [] 500 900 "tg down" (Option.some "tg down")
    ⟨ExnType.httpError, "api down"⟩ (by decide) rfl (by decide)
  exact ⟨⟨by decide, rfl, by decide⟩, h.1, h.2⟩
